import Mathlib

/-!
Shallow embedding of the request-signing and endpoint-dispatch layer of the
python-gamejolt-api repository (src/gamejolt): URL formatter, MD5 signer,
endpoint registry, requester, and the subcomponent guards, together with
proofs of the specification claims about them.

Python strings are Lean `String`s, Python `dict`s are insertion-ordered
association lists, machine words of the MD5 algorithm are `Nat` reduced
modulo 2^32, and fallible Python code (raised exceptions) returns `Except`.
-/

namespace GameJolt

/-- A Python value as it can appear among query parameters:
`str`, `int`, `bool` or `None`. -/
inductive PyVal where
  | str (s : String)
  | int (i : Int)
  | bool (b : Bool)
  | none
deriving DecidableEq, Repr

/-- Python `str(v)` for a query-parameter value. -/
def PyVal.pyStr : PyVal → String
  | .str s => s
  | .int i => toString i
  | .bool b => if b then "True" else "False"
  | .none => "None"

/-- First-match lookup in an insertion-ordered association list
(Python `dict[k]` / `dict.get(k)`). -/
def lookupD {α : Type} : List (String × α) → String → Option α
  | [], _ => Option.none
  | (k, v) :: rest, key => if k = key then some v else lookupD rest key

/-- Python `d1 | d2` (PEP 584 dict union): the keys of `d1` in their order,
values overridden by `d2` on collision, then the keys of `d2` not in `d1`,
in their order. Last write wins. -/
def dunion {α : Type} (d c : List (String × α)) : List (String × α) :=
  d.map (fun p => (p.1, ((lookupD c p.1).getD p.2))) ++
    c.filter (fun p => (lookupD d p.1).isNone)

/-- Python `d[k] = v` on a dict: an existing key keeps its position, a new
key is appended. -/
def dsetItem {α : Type} (d : List (String × α)) (k : String) (v : α) :
    List (String × α) :=
  if (lookupD d k).isSome then d.map (fun p => if p.1 = k then (k, v) else p)
  else d ++ [(k, v)]

/-- UTF-8 bytes of one character (Python `str.encode("utf-8")`, per char). -/
def utf8Char (c : Char) : List Nat :=
  let n := c.toNat
  if n < 128 then [n]
  else if n < 2048 then [192 + n / 64, 128 + n % 64]
  else if n < 65536 then [224 + n / 4096, 128 + n / 64 % 64, 128 + n % 64]
  else [240 + n / 262144, 128 + n / 4096 % 64, 128 + n / 64 % 64, 128 + n % 64]

/-- UTF-8 bytes of a string. -/
def utf8Str (s : String) : List Nat := s.data.flatMap utf8Char

/-- Python `s.encode("ascii")`: the bytes when every character is ASCII,
otherwise a `UnicodeEncodeError` (modelled as `none`). -/
def asciiEncode (s : String) : Option (List Nat) :=
  if s.data.all (fun c => c.toNat < 128) then some (s.data.map Char.toNat)
  else Option.none

/-- The sixteen lowercase hex digits (`"%x" % b` alphabet). -/
def hexDigits : List Char := "0123456789abcdef".data

/-- Lowercase hex digit of `n % 16`. -/
def hexCharL (n : Nat) : Char := hexDigits.getD (n % 16) 'x'

/-- Uppercase hex digit of `n % 16` (used by percent-encoding). -/
def hexCharU (n : Nat) : Char := "0123456789ABCDEF".data.getD (n % 16) 'X'

/-- Two lowercase hex digits of a byte (`hashlib`'s `hexdigest` alphabet). -/
def byteToHex (b : Nat) : List Char := [hexCharL (b / 16), hexCharL b]

/-- `urllib.parse`'s always-safe bytes: ASCII letters, digits, `_ . - ~`. -/
def safeByte (b : Nat) : Bool :=
  (65 ≤ b && b ≤ 90) || (97 ≤ b && b ≤ 122) || (48 ≤ b && b ≤ 57) ||
    b == 95 || b == 46 || b == 45 || b == 126

/-- How `quote_plus` renders one byte: safe bytes stand for themselves,
a space becomes `+`, anything else `%XX`. -/
def quoteByte (b : Nat) : List Char :=
  if safeByte b then [Char.ofNat b]
  else if b == 32 then ['+']
  else ['%', hexCharU (b / 16), hexCharU b]

/-- `urllib.parse.quote_plus` over the UTF-8 bytes of a string. -/
def quote_plus (s : String) : String := ⟨(utf8Str s).flatMap quoteByte⟩

/-- One `key=value` pair of `urllib.parse.urlencode`. -/
def encodePair (p : String × PyVal) : String :=
  quote_plus p.1 ++ "=" ++ quote_plus p.2.pyStr

/-- `urllib.parse.urlencode`: the pairs joined by `&`. -/
def urlencode : List (String × PyVal) → String
  | [] => ""
  | [p] => encodePair p
  | p :: q :: rest => encodePair p ++ "&" ++ urlencode (q :: rest)

/-! ### MD5 (`hashlib.md5`), over `Nat` words reduced modulo 2^32 -/

/-- 2^32, the modulus of the MD5 word arithmetic. -/
def M32 : Nat := 4294967296

/-- Addition modulo 2^32. -/
def add32 (a b : Nat) : Nat := (a + b) % M32

/-- Bitwise complement of a 32-bit word. -/
def not32 (x : Nat) : Nat := Nat.xor x 4294967295

/-- Left rotation of a 32-bit word by `s` (with `x < 2^32`, `0 < s < 32`). -/
def rotl32 (x s : Nat) : Nat := ((x <<< s) % M32) ||| (x >>> (32 - s))

/-- The MD5 sine-derived constant table `K[0..63]`. -/
def md5K : List Nat :=
  [0xd76aa478, 0xe8c7b756, 0x242070db, 0xc1bdceee,
   0xf57c0faf, 0x4787c62a, 0xa8304613, 0xfd469501,
   0x698098d8, 0x8b44f7af, 0xffff5bb1, 0x895cd7be,
   0x6b901122, 0xfd987193, 0xa679438e, 0x49b40821,
   0xf61e2562, 0xc040b340, 0x265e5a51, 0xe9b6c7aa,
   0xd62f105d, 0x02441453, 0xd8a1e681, 0xe7d3fbc8,
   0x21e1cde6, 0xc33707d6, 0xf4d50d87, 0x455a14ed,
   0xa9e3e905, 0xfcefa3f8, 0x676f02d9, 0x8d2a4c8a,
   0xfffa3942, 0x8771f681, 0x6d9d6122, 0xfde5380c,
   0xa4beea44, 0x4bdecfa9, 0xf6bb4b60, 0xbebfbc70,
   0x289b7ec6, 0xeaa127fa, 0xd4ef3085, 0x04881d05,
   0xd9d4d039, 0xe6db99e5, 0x1fa27cf8, 0xc4ac5665,
   0xf4292244, 0x432aff97, 0xab9423a7, 0xfc93a039,
   0x655b59c3, 0x8f0ccc92, 0xffeff47d, 0x85845dd1,
   0x6fa87e4f, 0xfe2ce6e0, 0xa3014314, 0x4e0811a1,
   0xf7537e82, 0xbd3af235, 0x2ad7d2bb, 0xeb86d391]

/-- The MD5 per-round left-rotation amounts `S[0..63]`. -/
def md5S : List Nat :=
  [7, 12, 17, 22, 7, 12, 17, 22, 7, 12, 17, 22, 7, 12, 17, 22,
   5, 9, 14, 20, 5, 9, 14, 20, 5, 9, 14, 20, 5, 9, 14, 20,
   4, 11, 16, 23, 4, 11, 16, 23, 4, 11, 16, 23, 4, 11, 16, 23,
   6, 10, 15, 21, 6, 10, 15, 21, 6, 10, 15, 21, 6, 10, 15, 21]

/-- `n`-byte little-endian encoding of `x`. -/
def leBytes (n x : Nat) : List Nat := (List.range n).map (fun i => x >>> (8 * i) % 256)

/-- Groups of four bytes as little-endian 32-bit words. -/
def bytesToWords : List Nat → List Nat
  | a :: b :: c :: d :: rest =>
      (a + b * 256 + c * 65536 + d * 16777216) :: bytesToWords rest
  | _ => []

/-- Groups of sixteen words: the 512-bit blocks. -/
def wordsToBlocks : List Nat → List (List Nat)
  | w0 :: w1 :: w2 :: w3 :: w4 :: w5 :: w6 :: w7 ::
      w8 :: w9 :: w10 :: w11 :: w12 :: w13 :: w14 :: w15 :: rest =>
      [w0, w1, w2, w3, w4, w5, w6, w7,
       w8, w9, w10, w11, w12, w13, w14, w15] :: wordsToBlocks rest
  | _ => []

/-- MD5 padding: a `0x80` byte, zeros to 56 mod 64, then the 64-bit
little-endian bit length. -/
def md5Pad (msg : List Nat) : List Nat :=
  let len := msg.length
  msg ++ [128] ++ List.replicate ((119 - len % 64) % 64) 0 ++
    leBytes 8 (len * 8 % 18446744073709551616)

/-- One of the 64 MD5 rounds on the state `(a, b, c, d)` over block `m`. -/
def md5Round (m : List Nat) (st : Nat × Nat × Nat × Nat) (i : Nat) :
    Nat × Nat × Nat × Nat :=
  let a := st.1
  let b := st.2.1
  let c := st.2.2.1
  let d := st.2.2.2
  let f :=
    if i < 16 then (b &&& c) ||| (not32 b &&& d)
    else if i < 32 then (d &&& b) ||| (not32 d &&& c)
    else if i < 48 then Nat.xor (Nat.xor b c) d
    else Nat.xor c (b ||| not32 d)
  let g :=
    if i < 16 then i
    else if i < 32 then (5 * i + 1) % 16
    else if i < 48 then (3 * i + 5) % 16
    else 7 * i % 16
  let f2 := (f + a + md5K.getD i 0 + m.getD g 0) % M32
  (d, add32 b (rotl32 f2 (md5S.getD i 0)), b, c)

/-- The MD5 compression function: 64 rounds, then add the old state. -/
def md5Block (st : Nat × Nat × Nat × Nat) (m : List Nat) :
    Nat × Nat × Nat × Nat :=
  let r := (List.range 64).foldl (md5Round m) st
  (add32 st.1 r.1, add32 st.2.1 r.2.1, add32 st.2.2.1 r.2.2.1,
   add32 st.2.2.2 r.2.2.2)

/-- MD5 digest (16 bytes) of a byte string. -/
def md5Bytes (msg : List Nat) : List Nat :=
  let blocks := wordsToBlocks (bytesToWords (md5Pad msg))
  let st := blocks.foldl md5Block
    (0x67452301, 0xefcdab89, 0x98badcfe, 0x10325476)
  leBytes 4 st.1 ++ leBytes 4 st.2.1 ++ leBytes 4 st.2.2.1 ++ leBytes 4 st.2.2.2

/-- `hashlib.md5(msg).hexdigest()`: the digest bytes in lowercase hex. -/
def md5HexOfBytes (msg : List Nat) : String := ⟨(md5Bytes msg).flatMap byteToHex⟩

/-! ### endpoints.py: constants, module-level `format_queries`, registry -/

/-- `endpoints.BASE_URL`. -/
def BASE_URL : String := "https://api.gamejolt.com/api/game/"

/-- `endpoints.API_VERSION`. -/
def API_VERSION : String := "v1_2"

/-- `endpoints.supported_formats`. -/
def supported_formats : List String := ["json", "keypair", "dump", "xml"]

/-- `endpoints.Endpoints`: the two-level registry of category name to
operation name to path template. -/
def Endpoints : List (String × List (String × String)) :=
  [("USERS", [("FETCH", "/users"), ("AUTH", "/users/auth")]),
   ("SESSIONS", [("OPEN", "/sessions/open"), ("PING", "/sessions/ping"),
                 ("CHECK", "/sessions/check"), ("CLOSE", "/sessions/close")]),
   ("SCORES", [("FETCH", "/scores/"), ("ADD", "/scores/add"),
               ("GET_RANK", "/scores/get-rank"), ("TABLES", "/scores/tables")]),
   ("TROPHIES", [("FETCH", "/trophies"), ("ADD_ACHIEVED", "/trophies/add-achieved"),
                 ("REMOVE_ACHIEVED", "/trophies/remove-achieved")]),
   ("DATASTORE", [("FETCH", "/data-store/fetch"), ("GET_KEYS", "/data-store/get-keys"),
                  ("REMOVE", "/data-store/remove"), ("SET", "/data-store/set"),
                  ("UPDATE", "/data-store/update")]),
   ("FRIENDS", [("FETCH", "/friends")]),
   ("TIME", [("FETCH", "/time")])]

/-- Module-level `endpoints.format_queries(url, encoding, **queries)`:
`((url and url + "?") or "") + urlencode(queries)`. -/
def format_queries (url : String) (queries : List (String × PyVal)) : String :=
  (if url = "" then "" else url ++ "?") ++ urlencode queries

/-! ### models/response.py and the error taxonomy of errors.py -/

/-- `models.Response`: the decoded outcome of a request.  The `response`
payload dict is kept as a string-to-string association list. -/
structure Response where
  success : Bool
  response : List (String × String)
  message : Option String
deriving DecidableEq, Repr

/-- `models.User`, reduced to the two attributes the guarded operations
read: `username`, and the dynamically attached session `token`
(`None` when never set). -/
structure PyUser where
  username : String
  token : Option String
deriving DecidableEq, Repr

/-- The trophy-specific subclasses of `ApiError` in errors.py. -/
inductive TrophyErrorKind where
  | userAlreadyHasTrophy
  | incorrectTrophyID
  | userHasNotAchievedTrophy
deriving DecidableEq, Repr

/-- The exceptions the embedded layer can raise: Python builtins
(`ValueError`, `KeyError`, `AttributeError`, `UnicodeEncodeError`) and the
`ApiError` taxonomy of errors.py. -/
inductive GJError where
  | valueError (msg : String)
  | typeError (msg : String)
  | keyError (key : String)
  | attributeError (name : String)
  | unicodeEncodeError
  | apiError (msg : String) (response : Response)
  | trophiesError (kind : TrophyErrorKind) (msg : String)
      (trophy_id : Option Int) (user : Option PyUser) (response : Option Response)
deriving DecidableEq, Repr

/-! ### requester.py: the signer and the Requester -/

/-- `requester.generate_signature(url, key)`:
`hashlib.md5((url + key).encode("ascii")).hexdigest()`; `none` models the
`UnicodeEncodeError` of `.encode("ascii")` on a non-ASCII argument. -/
def generate_signature (url key : String) : Option String :=
  (asciiEncode (url ++ key)).map md5HexOfBytes

/-- The state of a `RequesterAbstract` (which extends `Formatter`):
`base_url`, `api_version` and default `queries` from
`FormatterAbstract.__init__`, plus the `private_key`. -/
structure Requester where
  base_url : String
  api_version : String
  queries : List (String × PyVal)
  private_key : String
deriving DecidableEq, Repr

/-- `RequesterAbstract.__init__(key, game=..., response_format=..., **kwargs)`:
validates the response format, then builds the formatter state with
`game_id` and `format` merged ahead of the remaining keyword arguments;
`base` and `version` keywords are captured by `FormatterAbstract.__init__`
and default to `BASE_URL` and `API_VERSION`. -/
def requesterInit (key : String) (game : PyVal) (response_format : String)
    (base version : Option String) (kwargs : List (String × PyVal)) :
    Except GJError Requester :=
  if supported_formats.contains response_format then
    .ok { base_url := base.getD BASE_URL,
          api_version := version.getD API_VERSION,
          queries := [("game_id", game), ("format", PyVal.str response_format)]
            ++ kwargs,
          private_key := key }
  else
    .error (.valueError ("Invalid response format: " ++ response_format ++
      ". Supported formats are: " ++ String.intercalate ", " supported_formats))

/-- `FormatterAbstract.format_url(endpoint)`:
`f"{self.base_url}{self.api_version}{endpoint}"`. -/
def Requester.format_url (rq : Requester) (endpoint : String) : String :=
  rq.base_url ++ rq.api_version ++ endpoint

/-- The body of `FormatterAbstract.format_queries` once its keyword
binding is done, on the default `"utf-8"` codec: the instance queries
merged with the `**queries` dict (`self.queries | queries`), encoded.
`Requester.format_queries_call` below embeds the full call semantics,
keyword capture included. -/
def Requester.format_queries (rq : Requester) (url : String)
    (queries : List (String × PyVal)) : String :=
  GameJolt.format_queries url (dunion rq.queries queries)

/-- The call `self.format_queries(url, **c)` against the signature
`FormatterAbstract.format_queries(self, /, url="", encoding="utf-8",
**queries)`.  `url` is passed positionally, so a call-time `"url"` key
raises `TypeError`; a call-time `"encoding"` key is captured by the
`encoding` parameter — it selects the byte codec and joins no query
pair; only the remaining keys become `**queries`.  The body then runs
`format_queries(url, encoding, **(self.queries | queries))` with
`encoding` again positional, so an `"encoding"` key among the merged
pairs raises `TypeError` as well.  The result pairs the bound codec with
the encoded string; which pairs the string holds is codec-independent
(`quote_plus` never emits a bare `=` or `&`), and the byte rendering is
that of the default `"utf-8"` codec, the only one this layer ever
selects itself. -/
def Requester.format_queries_call (rq : Requester) (url : String)
    (c : List (String × PyVal)) : Except GJError (PyVal × String) :=
  if (lookupD c "url").isSome then
    .error (.typeError "format_queries() got multiple values for argument url")
  else
    let encoding := (lookupD c "encoding").getD (PyVal.str "utf-8")
    let queries := c.filter (fun p => p.1 != "encoding")
    let merged := dunion rq.queries queries
    if (lookupD merged "encoding").isSome then
      .error
        (.typeError "format_queries() got multiple values for argument encoding")
    else
      .ok (encoding, GameJolt.format_queries url merged)

/-- `FormatterAbstract.format(endpoint, **queries)`: the pre-signature URL. -/
def Requester.formatter_format (rq : Requester) (endpoint : String)
    (queries : List (String × PyVal)) : String :=
  rq.format_queries (rq.format_url endpoint) queries

/-- `RequesterAbstract.format_signature(url)`:
`"&".join((url, format_queries(signature=self.generate_signature(url))))`. -/
def Requester.format_signature (rq : Requester) (url : String) : Option String :=
  (generate_signature url rq.private_key).map
    (fun sig => url ++ "&" ++
      GameJolt.format_queries "" [("signature", PyVal.str sig)])

/-- `RequesterAbstract.format(endpoint, **queries)`: the signed URL. -/
def Requester.format (rq : Requester) (endpoint : String)
    (queries : List (String × PyVal)) : Option String :=
  rq.format_signature (rq.formatter_format endpoint queries)

/-! ### `post` and the transport boundary -/

/-- What `self.evaluate(self._post(url))` yields: the decoded transport
response, a dict `{success, response, message?}`. -/
structure Evaled where
  success : Bool
  response : List (String × String)
  message : Option String
deriving DecidableEq, Repr

/-- The abstract transport with its decoder: `_post` composed with
`evaluate`, supplied by the embedding application. -/
def Transport : Type := String → Evaled

/-- The outcome half of `RequesterAbstract.post(url)` once the transport
response is decoded: builds `Response.from_dict`, raises `ApiError` with the
decoded `message` when `success` is false (a failure dict without a
`message` key raises `KeyError`). -/
def evaluate_post (e : Evaled) : Except GJError Response :=
  let rm : Response := ⟨e.success, e.response, e.message⟩
  if e.success then .ok rm
  else
    match e.message with
    | some m => .error (.apiError m rm)
    | Option.none => .error (.keyError "message")

/-- `RequesterAbstract.post(url)` with the transport explicit.  The first
component logs the URLs handed to the transport, in order. -/
def post_op (tr : Transport) (url : String) :
    List String × Except GJError Response :=
  ([url], evaluate_post (tr url))

/-! ### Formatter.__getattr__ and EndpointWrapper (endpoints.py) -/

/-- `EndpointWrapper(formatter, endpoints)`: one endpoint category bound to
the live requester. -/
structure EndpointWrapper where
  formatter : Requester
  endpoints : List (String × String)

/-- `Formatter.__getattr__(key)`: a key of the `Endpoints` registry yields
an `EndpointWrapper` over that category; any other missing attribute raises
`AttributeError` at access time. -/
def Formatter.getattr (rq : Requester) (key : String) :
    Except GJError EndpointWrapper :=
  match lookupD Endpoints key with
  | some tbl => .ok ⟨rq, tbl⟩
  | Option.none => .error (.attributeError key)

/-- `EndpointWrapper.__getattr__(key)`: an operation of the wrapped category
yields the bound callable
`lambda **kwargs: self.formatter.format(self.endpoints[key], **kwargs)`;
any other name raises `AttributeError` at access time. -/
def EndpointWrapper.getattr (w : EndpointWrapper) (key : String) :
    Except GJError (List (String × PyVal) → Option String) :=
  match lookupD w.endpoints key with
  | some path => .ok (fun queries => w.formatter.format path queries)
  | Option.none => .error (.attributeError key)

/-! ### subcomponents/helpers.py: version and token gating -/

/-- `constants.VERSIONS`. -/
def VERSIONS : List (String × Nat) := [("v1", 1), ("v1_1", 2), ("v1_2", 3)]

/-- `helpers.api_version_guard(api_version)` around a guarded method body
`k`: when `VERSIONS[self.requester.api_version] < VERSIONS[api_version]`
raise `ValueError` before running the body.  A version string outside
`VERSIONS` raises `KeyError`.  The body's log of transport calls is the
first component; a guard failure makes none. -/
def api_version_guard {α : Type} (apiVersion funcName : String) (rq : Requester)
    (k : Unit → List String × Except GJError α) :
    List String × Except GJError α :=
  match lookupD VERSIONS rq.api_version, lookupD VERSIONS apiVersion with
  | some cur, some req =>
      if cur < req then
        ([], .error (.valueError ("API version mismatch: " ++ funcName ++
          "() is only supported at API version " ++ apiVersion)))
      else k ()
  | Option.none, _ => ([], .error (.keyError rq.api_version))
  | some _, Option.none => ([], .error (.keyError apiVersion))

/-- `helpers.token_required` around a guarded method body `k`: when
`user.token is None` raise `ValueError("A user token is required.")`
before running the body (and before any transport call). -/
def token_required {α : Type} (user : PyUser)
    (k : Unit → List String × Except GJError α) :
    List String × Except GJError α :=
  match user.token with
  | Option.none => ([], .error (.valueError "A user token is required."))
  | some _ => k ()

/-! ### subcomponents/data_store.py -/

/-- Python `str.capitalize()`: first character uppercased, the rest
lowercased. -/
def capitalizePy (s : String) : String :=
  match s.data with
  | [] => ""
  | c :: cs => ⟨c.toUpper :: cs.map Char.toLower⟩

/-- An optional Python string as a parameter value (`None` when absent). -/
def optToVal : Option String → PyVal
  | some s => .str s
  | Option.none => .none

/-- `DataStoreComponent.__user_or_key_checker(user_or_key, key_value,
key_name)`: builds the parameter dict, adds `username`/`user_token` and
checks the token for a `User` first argument, overwrites the key with a
string first argument, then raises `ValueError` when the named key is still
`None`. -/
def user_or_key_checker (user_or_key : PyUser ⊕ String) (key_value : PyVal)
    (key_name : String) : Except GJError (List (String × PyVal)) :=
  match user_or_key with
  | .inl user =>
      match user.token with
      | Option.none => .error (.valueError "User must have a token set.")
      | some t =>
          let params := [(key_name, key_value),
            ("username", PyVal.str user.username), ("user_token", PyVal.str t)]
          if key_value = PyVal.none then
            .error (.valueError (capitalizePy key_name ++ " must be provided."))
          else .ok params
  | .inr s =>
      let params := [(key_name, PyVal.str s)]
      if PyVal.str s = PyVal.none then
        .error (.valueError (capitalizePy key_name ++ " must be provided."))
      else .ok params

/-- Whether `models.Response` (a plain dataclass) has an attribute of this
name: only its three declared fields. -/
def responseHasAttr (name : String) : Bool :=
  name == "success" || name == "response" || name == "message"

/-- `DataStoreComponent.get_keys(user_or_pattern, pattern=None)`: runs the
checker, re-assigns `pattern` for a `User` first argument, raises
`ValueError` below API version v1_2 whenever a pattern is present, then
posts the formatted `DATASTORE.GET_KEYS` URL and reads `.keys` off the
returned `Response` model (an attribute the dataclass does not declare). -/
def get_keys (rq : Requester) (tr : Transport)
    (user_or_pattern : PyUser ⊕ String) (pattern : Option String) :
    List String × Except GJError Response :=
  match user_or_key_checker user_or_pattern (optToVal pattern) "pattern" with
  | .error e => ([], .error e)
  | .ok params0 =>
      let params :=
        match user_or_pattern with
        | .inl _ => dsetItem params0 "pattern" (optToVal pattern)
        | .inr _ => params0
      if (lookupD params "pattern").getD PyVal.none ≠ PyVal.none then
        match lookupD VERSIONS rq.api_version, lookupD VERSIONS "v1_2" with
        | some cur, some req =>
            if cur < req then
              ([], .error (.valueError
                "API version mismatch: pattern argument is only supported at API version v1_2"))
            else
              match rq.format "/data-store/get-keys" params with
              | Option.none => ([], .error .unicodeEncodeError)
              | some url =>
                  match post_op tr url with
                  | (log, .error e) => (log, .error e)
                  | (log, .ok rm) =>
                      if responseHasAttr "keys" then (log, .ok rm)
                      else (log, .error (.attributeError "keys"))
        | Option.none, _ => ([], .error (.keyError rq.api_version))
        | some _, Option.none => ([], .error (.keyError "v1_2"))
      else
        match rq.format "/data-store/get-keys" params with
        | Option.none => ([], .error .unicodeEncodeError)
        | some url =>
            match post_op tr url with
            | (log, .error e) => (log, .error e)
            | (log, .ok rm) =>
                if responseHasAttr "keys" then (log, .ok rm)
                else (log, .error (.attributeError "keys"))

/-! ### subcomponents/trophies.py -/

/-- `TrophiesComponent._raise_error(error, trophy_id, user)`: the typed
error to raise, pattern-matched on the remote `response.message`; a message
matching none of the three known strings re-raises the original
`ApiError`. -/
def trophies_raise_error (errMsg : String) (resp : Response)
    (trophy_id : Int) (user : PyUser) : GJError :=
  if resp.message = some "The user already has this trophy." then
    .trophiesError .userAlreadyHasTrophy
      ("User " ++ user.username ++ " already has trophy " ++ toString trophy_id)
      (some trophy_id) (some user) (some resp)
  else if resp.message = some "Incorrect trophy ID." then
    .trophiesError .incorrectTrophyID
      ("Invalid trophy ID: " ++ toString trophy_id)
      (some trophy_id) (some user) (some resp)
  else if resp.message = some "The user does not have this trophy." then
    .trophiesError .userHasNotAchievedTrophy
      ("User " ++ user.username ++ " does not have trophy " ++ toString trophy_id)
      (some trophy_id) (some user) (some resp)
  else .apiError errMsg resp

/-- `TrophiesComponent.add_achieved(user, trophy_id)`: token-gated; formats
`TROPHIES.ADD_ACHIEVED` with `username`, `user_token`, `trophy_id`; posts
it; an `ApiError` from `post` is rewritten by `_raise_error`. -/
def add_achieved (rq : Requester) (tr : Transport) (user : PyUser)
    (trophy_id : Int) : List String × Except GJError Response :=
  token_required user (fun _ =>
    match rq.format "/trophies/add-achieved"
        [("username", PyVal.str user.username),
         ("user_token", optToVal user.token),
         ("trophy_id", PyVal.int trophy_id)] with
    | Option.none => ([], .error .unicodeEncodeError)
    | some url =>
        match post_op tr url with
        | (log, .ok rm) => (log, .ok rm)
        | (log, .error (.apiError m resp)) =>
            (log, .error (trophies_raise_error m resp trophy_id user))
        | (log, .error e) => (log, .error e))

/-! ### Concrete fixtures for witnesses -/

/-- The Requester of §8's worked example: key `"secret"`, game id `1`,
response format `"json"`, default base URL and API version. -/
def rqDemo : Requester :=
  { base_url := BASE_URL, api_version := API_VERSION,
    queries := [("game_id", PyVal.int 1), ("format", PyVal.str "json")],
    private_key := "secret" }

/-- `rqDemo` reconfigured at API version v1_1. -/
def rqDemoV11 : Requester := { rqDemo with api_version := "v1_1" }

/-- A stub transport whose decoded response always succeeds. -/
def trSuccess : Transport :=
  fun _ => { success := true, response := [], message := Option.none }

/-- A stub transport that always reports the already-has-trophy failure. -/
def trAlreadyHas : Transport :=
  fun _ => { success := false, response := [],
             message := some "The user already has this trophy." }

/-- A user with a session token set. -/
def userDemo : PyUser := { username := "alice", token := some "tok" }

/-! ### Helper lemmas: percent-encoding fixes hex digests -/

/-- Every output character of `hexCharL` is a lowercase hex digit. -/
lemma hexCharL_mem_hexDigits (n : Nat) : hexCharL n ∈ hexDigits := by
  have h : n % 16 < 16 := Nat.mod_lt _ (by decide)
  have hall : ∀ m < 16, hexDigits.getD m 'x' ∈ hexDigits := by decide
  exact hall (n % 16) h

/-- Every character of an `md5HexOfBytes`-style hex rendering is a
lowercase hex digit. -/
lemma mem_hexDigits_of_mem_flatMap_byteToHex {l : List Nat} {c : Char}
    (h : c ∈ l.flatMap byteToHex) : c ∈ hexDigits := by
  induction l with
  | nil => simp at h
  | cons b rest ih =>
      simp only [List.flatMap_cons, List.mem_append] at h
      rcases h with h | h
      · simp only [byteToHex, List.mem_cons, List.mem_singleton] at h
        rcases h with h | h | h
        · exact h ▸ hexCharL_mem_hexDigits _
        · exact h ▸ hexCharL_mem_hexDigits _
        · cases h
      · exact ih h

/-- A lowercase hex digit percent-encodes to itself. -/
lemma quote_fixes_hexDigit :
    ∀ c ∈ hexDigits, utf8Char c = [c.toNat] ∧ quoteByte c.toNat = [c] := by
  decide

/-- A list of lowercase hex digits survives UTF-8 encoding followed by
byte quoting unchanged. -/
lemma flatMap_quote_of_hex (cs : List Char) (h : ∀ c ∈ cs, c ∈ hexDigits) :
    (cs.flatMap utf8Char).flatMap quoteByte = cs := by
  induction cs with
  | nil => rfl
  | cons c rest ih =>
      have hc := quote_fixes_hexDigit c (h c (List.mem_cons_self c rest))
      have hrest := ih (fun x hx => h x (List.mem_cons_of_mem c hx))
      simp only [List.flatMap_cons, List.flatMap_append, hc.1]
      simp only [List.flatMap_cons, List.flatMap_nil, List.append_nil, hc.2]
      simpa using hrest

/-- A string of lowercase hex digits is untouched by `quote_plus`. -/
lemma quote_plus_of_hex (cs : List Char) (h : ∀ c ∈ cs, c ∈ hexDigits) :
    quote_plus ⟨cs⟩ = ⟨cs⟩ := by
  apply String.ext
  exact flatMap_quote_of_hex cs h

/-- An MD5 hex digest is untouched by `quote_plus`. -/
lemma quote_plus_md5Hex (bs : List Nat) :
    quote_plus (md5HexOfBytes bs) = md5HexOfBytes bs := by
  apply quote_plus_of_hex
  intro c hc
  exact mem_hexDigits_of_mem_flatMap_byteToHex hc

/-- `url ++ "&" ++ ("signature" ++ "=" ++ sig)` regrouped the way the spec
writes it. -/
lemma append_sig_shape (u s : String) :
    u ++ "&" ++ ("signature" ++ "=" ++ s) = u ++ "&signature=" ++ s := by
  have h : ("&" : String) ++ "signature" ++ "=" = "&signature=" := by decide
  rw [← h]
  apply String.ext
  simp [String.data_append]

/-- `RequesterAbstract.format_signature` on an ASCII-encodable input: the
URL, then `&signature=`, then the hex MD5 of `url + private_key`. -/
lemma format_signature_ascii (rq : Requester) (url : String)
    (h : (url ++ rq.private_key).data.all (fun c => c.toNat < 128) = true) :
    rq.format_signature url =
      some (url ++ "&signature=" ++
        md5HexOfBytes ((url ++ rq.private_key).data.map Char.toNat)) := by
  simp only [Requester.format_signature, generate_signature, asciiEncode, h,
    if_true, Option.map_some', Option.map_some]
  rw [← append_sig_shape]
  congr 2
  simp only [GameJolt.format_queries, urlencode, encodePair, PyVal.pyStr, if_true]
  have h1 : quote_plus "signature" = "signature" := by decide
  rw [h1, quote_plus_md5Hex]
  apply String.ext
  simp [String.data_append]

/-! ### Helper lemmas: dictionary union -/

/-- Lookup distributes over list append, first list first. -/
lemma lookupD_append {α : Type} (l1 l2 : List (String × α)) (k : String) :
    lookupD (l1 ++ l2) k =
      match lookupD l1 k with
      | some v => some v
      | Option.none => lookupD l2 k := by
  induction l1 with
  | nil => simp [lookupD]
  | cons p rest ih =>
      by_cases hk : p.1 = k
      · simp [lookupD, hk]
      · simp [lookupD, hk, ih]

/-- Lookup through the override map of `dunion`. -/
lemma lookupD_override {α : Type} (d c : List (String × α)) (k : String) :
    lookupD (d.map (fun p => (p.1, (lookupD c p.1).getD p.2))) k =
      (lookupD d k).map (fun v => (lookupD c k).getD v) := by
  induction d with
  | nil => simp [lookupD]
  | cons p rest ih =>
      by_cases hk : p.1 = k
      · simp [lookupD, hk]
      · simp [lookupD, hk, ih]

/-- Lookup through the `dunion` filter of keys new to `c`. -/
lemma lookupD_filter_new {α : Type} (d c : List (String × α)) (k : String) :
    lookupD (c.filter (fun p => (lookupD d p.1).isNone)) k =
      if (lookupD d k).isNone then lookupD c k else Option.none := by
  induction c with
  | nil => simp [lookupD]
  | cons p rest ih =>
      by_cases hk : p.1 = k
      · subst hk
        by_cases hd : (lookupD d p.1).isNone
        · simp [List.filter, lookupD, hd, ih]
        · simp only [List.filter_cons]
          rw [if_neg (by simpa using hd)]
          simp [lookupD, hd, ih]
      · by_cases hd : (lookupD d p.1).isNone
        · simp only [List.filter_cons]
          rw [if_pos (by simpa using hd)]
          simp [lookupD, hk, ih]
        · simp only [List.filter_cons]
          rw [if_neg (by simpa using hd)]
          simp [lookupD, hk, ih]

/-- Python dict union is right-biased: a `dunion` lookup is the call-time
value when present, the default otherwise. -/
lemma lookupD_dunion {α : Type} (d c : List (String × α)) (k : String) :
    lookupD (dunion d c) k = ((lookupD c k).or (lookupD d k)) := by
  rw [dunion, lookupD_append, lookupD_override, lookupD_filter_new]
  cases hd : lookupD d k with
  | none => cases hc : lookupD c k <;> simp [hd, hc, Option.or]
  | some v => cases hc : lookupD c k <;> simp [hd, hc, Option.or]

/-- The keys of a `dunion`: all keys of the defaults, then the new
call-time keys. -/
lemma dunion_keys {α : Type} (d c : List (String × α)) :
    (dunion d c).map Prod.fst =
      d.map Prod.fst ++
        (c.filter (fun p => (lookupD d p.1).isNone)).map Prod.fst := by
  simp [dunion, Function.comp]

/-- Filtering out a key no entry carries leaves the list unchanged. -/
lemma filter_ne_of_lookupD_none {α : Type} (l : List (String × α)) (k : String)
    (h : lookupD l k = Option.none) :
    l.filter (fun p => p.1 != k) = l := by
  induction l with
  | nil => rfl
  | cons p rest ih =>
      by_cases hk : p.1 = k
      · simp [lookupD, hk] at h
      · simp only [lookupD, hk, if_false] at h
        simp [List.filter_cons, hk, ih h]

/-- A successful lookup names an entry of the list. -/
lemma lookupD_mem {α : Type} {l : List (String × α)} {k : String} {v : α}
    (h : lookupD l k = some v) : (k, v) ∈ l := by
  induction l with
  | nil => cases h
  | cons p rest ih =>
      by_cases hk : p.1 = k
      · simp only [lookupD, hk, if_true, Option.some_inj] at h
        exact List.mem_cons.mpr (Or.inl (by rw [← hk, ← h]))
      · simp only [lookupD, hk, if_false] at h
        exact List.mem_cons_of_mem _ (ih h)

/-- The merged dict holds each call-time binding whose value the merge
keeps. -/
lemma dunion_mem_of_call {α : Type} [DecidableEq α]
    (d c : List (String × α)) (k : String) (v : α)
    (h : lookupD c k = some v) : (k, v) ∈ dunion d c := by
  cases hd : lookupD d k with
  | some v0 =>
      apply List.mem_append_left
      have hm : (k, v0) ∈ d := lookupD_mem hd
      refine List.mem_map.mpr ⟨(k, v0), hm, ?_⟩
      simp [h]
  | none =>
      apply List.mem_append_right
      refine List.mem_filter.mpr ⟨lookupD_mem h, ?_⟩
      simp [hd]

/-- `encodePair p` opens the encoding of any parameter list starting
with `p`. -/
lemma urlencode_cons_head (p : String × PyVal) (l : List (String × PyVal)) :
    (encodePair p).data <+: (urlencode (p :: l)).data := by
  cases l with
  | nil => exact List.prefix_refl _
  | cons q rest =>
      show (encodePair p).data <+:
        (encodePair p ++ "&" ++ urlencode (q :: rest)).data
      simp only [String.data_append, List.append_assoc]
      exact List.prefix_append _ _

/-- Every listed pair appears, encoded, inside the encoded query string. -/
lemma encodePair_infix_urlencode (p : String × PyVal)
    (l : List (String × PyVal)) (h : p ∈ l) :
    (encodePair p).data <:+: (urlencode l).data := by
  induction l with
  | nil => cases h
  | cons q rest ih =>
      rcases List.mem_cons.mp h with rfl | hmem
      · exact (urlencode_cons_head p rest).isInfix
      · cases rest with
        | nil => cases hmem
        | cons r rest2 =>
            obtain ⟨s, t, hst⟩ := ih hmem
            show (encodePair p).data <:+:
              (encodePair q ++ "&" ++ urlencode (r :: rest2)).data
            refine ⟨(encodePair q).data ++ "&".data ++ s, t, ?_⟩
            simp only [String.data_append, List.append_assoc]
            rw [← hst]
            simp [List.append_assoc]

/-- A string with a nonempty character list is not the empty string. -/
lemma str_ne_empty {s : String} (h : s.data ≠ []) : s ≠ "" :=
  fun he => h (congrArg String.data he)

/-! ### The claims -/

set_option maxRecDepth 100000

/-- C1: for every URL string `u` and private key `k` (ASCII-encodable, as
`str.encode("ascii")` demands), the signature the Requester appends equals
the hex MD5 digest of the bytes of `u` followed by `k` with no separator,
and `format_signature(u)` returns `u ++ "&signature=" ++ digest`, the
digest computed over `u` exactly as it stands before the signature
parameter is appended. -/
theorem C1_signature_md5_url_then_key (u k : String) (rq : Requester)
    (hkey : rq.private_key = k)
    (h : (u ++ k).data.all (fun c => c.toNat < 128) = true) :
    generate_signature u k =
      some (md5HexOfBytes ((u ++ k).data.map Char.toNat)) ∧
    rq.format_signature u =
      some (u ++ "&signature=" ++
        md5HexOfBytes ((u ++ k).data.map Char.toNat)) := by
  constructor
  · simp only [generate_signature, asciiEncode, h, if_true,
      Option.map_some', Option.map_some]
  · subst hkey
    exact format_signature_ascii rq u h

/-- C1, instantiated: the worked signature of a concrete URL and key. -/
theorem C1_signature_md5_url_then_key_witness :
    generate_signature "http://x?a=1" "secret" =
      some (md5HexOfBytes (("http://x?a=1" ++ "secret").data.map Char.toNat)) ∧
    rqDemo.format_signature "http://x?a=1" =
      some ("http://x?a=1" ++ "&signature=" ++
        md5HexOfBytes (("http://x?a=1" ++ "secret").data.map Char.toNat)) :=
  C1_signature_md5_url_then_key "http://x?a=1" "secret" rqDemo rfl (by decide)

/-- C2: a Requester with key `"secret"`, game id `1` and format `"json"`
formats `/users` with `user_id="5"` into exactly the §8 pre-signature URL,
in merge order (defaults first, then call parameters), and signs it with
the hex MD5 of that URL concatenated with `"secret"` — a digest the
embedded MD5 renders as `4caefcad21ccef02970b0323015071a7`, matching the
reference `md5` implementation. -/
theorem C2_concrete_users_url :
    requesterInit "secret" (PyVal.int 1) "json" Option.none Option.none [] =
      .ok rqDemo ∧
    rqDemo.formatter_format "/users" [("user_id", PyVal.str "5")] =
      "https://api.gamejolt.com/api/game/v1_2/users?game_id=1&format=json&user_id=5" ∧
    rqDemo.format "/users" [("user_id", PyVal.str "5")] =
      some ("https://api.gamejolt.com/api/game/v1_2/users?game_id=1&format=json&user_id=5"
        ++ "&signature=" ++
        md5HexOfBytes
          (("https://api.gamejolt.com/api/game/v1_2/users?game_id=1&format=json&user_id=5"
            ++ "secret").data.map Char.toNat)) ∧
    md5HexOfBytes
        (("https://api.gamejolt.com/api/game/v1_2/users?game_id=1&format=json&user_id=5"
          ++ "secret").data.map Char.toNat) =
      "4caefcad21ccef02970b0323015071a7" := by
  have hpre : rqDemo.formatter_format "/users" [("user_id", PyVal.str "5")] =
      "https://api.gamejolt.com/api/game/v1_2/users?game_id=1&format=json&user_id=5" := by
    decide
  refine ⟨by rfl, hpre, ?_, by decide⟩
  show rqDemo.format_signature
      (rqDemo.formatter_format "/users" [("user_id", PyVal.str "5")]) = _
  rw [hpre]
  exact format_signature_ascii rqDemo _ (by decide)

/-- C3 counterexample: the claim is not true of every call-time map.  A
call-time `encoding` pair is captured by the `encoding` parameter of
`format_queries` — the codec changes to `"latin-1"` and the produced
query string carries no `encoding` pair at all, so a key present only in
`c` does not keep its value; and a call-time `url` key raises
`TypeError` before any URL is built. -/
theorem C3_reserved_keyword_capture :
    rqDemo.format_queries_call "https://x"
        [("encoding", PyVal.str "latin-1")] =
      .ok (PyVal.str "latin-1", "https://x?game_id=1&format=json") ∧
    ¬ ("encoding".data <:+: ("https://x?game_id=1&format=json").data) ∧
    rqDemo.format_queries_call "https://x" [("url", PyVal.str "y")] =
      .error
        (.typeError "format_queries() got multiple values for argument url") :=
  ⟨rfl, by decide, rfl⟩

/-- C3 as amended: for call-time maps that avoid the parameter names
Python's keyword binding captures (`url`, which raises `TypeError`, and
`encoding`, which selects the codec and joins no pair — also reserved
among the instance defaults), `format_queries(url, **c)` encodes exactly
the merged dict `self.queries | c` under the default `utf-8` codec:
a key of both maps takes the call-time value, a key of only one keeps
its value, and every kept call-time binding appears encoded in the
produced query string. -/
theorem C3_merge_last_write_wins (rq : Requester) (url : String)
    (c : List (String × PyVal)) (k : String)
    (hurl : lookupD c "url" = Option.none)
    (henc : lookupD c "encoding" = Option.none)
    (hdenc : lookupD rq.queries "encoding" = Option.none) :
    rq.format_queries_call url c =
      .ok (PyVal.str "utf-8",
        GameJolt.format_queries url (dunion rq.queries c)) ∧
    ((lookupD c k).isSome → lookupD (dunion rq.queries c) k = lookupD c k) ∧
    (lookupD c k = Option.none →
      lookupD (dunion rq.queries c) k = lookupD rq.queries k) ∧
    (∀ v, lookupD c k = some v →
      (encodePair (k, v)).data <:+: (urlencode (dunion rq.queries c)).data) := by
  refine ⟨?_, ?_, ?_, ?_⟩
  · rw [Requester.format_queries_call]
    rw [if_neg (by rw [hurl]; exact Bool.false_ne_true)]
    rw [henc, filter_ne_of_lookupD_none c "encoding" henc]
    rw [if_neg (by rw [lookupD_dunion, henc, hdenc]; exact Bool.false_ne_true)]
    rfl
  · intro hs
    rw [lookupD_dunion]
    cases hc : lookupD c k with
    | none => rw [hc] at hs; cases hs
    | some v => simp [Option.or]
  · intro hc
    rw [lookupD_dunion, hc]
    cases lookupD rq.queries k <;> simp [Option.or]
  · intro v hv
    exact encodePair_infix_urlencode (k, v) _ (dunion_mem_of_call _ _ _ _ hv)

/-- C3 as amended, instantiated: a default `game_id=1` overridden by a
call-time `game_id=9` yields the call-time binding, encoded. -/
theorem C3_merge_last_write_wins_witness :
    (rqDemo.format_queries_call "https://x" [("game_id", PyVal.int 9)] =
      .ok (PyVal.str "utf-8",
        GameJolt.format_queries "https://x"
          (dunion rqDemo.queries [("game_id", PyVal.int 9)]))) ∧
    ((lookupD [("game_id", PyVal.int 9)] "game_id").isSome →
      lookupD (dunion rqDemo.queries [("game_id", PyVal.int 9)]) "game_id" =
        lookupD [("game_id", PyVal.int 9)] "game_id") ∧
    (lookupD [("game_id", PyVal.int 9)] "game_id" = Option.none →
      lookupD (dunion rqDemo.queries [("game_id", PyVal.int 9)]) "game_id" =
        lookupD rqDemo.queries "game_id") ∧
    (∀ v, lookupD [("game_id", PyVal.int 9)] "game_id" = some v →
      (encodePair ("game_id", v)).data <:+:
        (urlencode (dunion rqDemo.queries [("game_id", PyVal.int 9)])).data) :=
  C3_merge_last_write_wins rqDemo "https://x" [("game_id", PyVal.int 9)]
    "game_id" rfl rfl rfl

/-- C4: `post` raises the typed API error exactly when the decoded response
has `success = false` (its `message` present, as the `evaluate` contract
promises); the raised error carries the structured Response with its
`message` field populated from the decoded message, and on
`success = true` the structured Response is returned with no exception. -/
theorem C4_post_error_iff_failure (e : Evaled)
    (h : e.success = false → (e.message).isSome) :
    (e.success = true →
      evaluate_post e = .ok ⟨e.success, e.response, e.message⟩) ∧
    (e.success = false → ∃ m, e.message = some m ∧
      evaluate_post e =
        .error (.apiError m ⟨e.success, e.response, e.message⟩)) ∧
    (∀ m rm, evaluate_post e = .error (.apiError m rm) →
      e.success = false ∧ rm.message = some m ∧
        rm = ⟨e.success, e.response, e.message⟩) := by
  refine ⟨?_, ?_, ?_⟩
  · intro hs
    simp [evaluate_post, hs]
  · intro hs
    obtain ⟨m, hm⟩ := Option.isSome_iff_exists.mp (h hs)
    exact ⟨m, hm, by simp [evaluate_post, hs, hm]⟩
  · intro m rm he
    cases hs : e.success with
    | true => simp [evaluate_post, hs] at he
    | false =>
        cases hm : e.message with
        | none => simp [evaluate_post, hs, hm] at he
        | some m0 =>
            simp only [evaluate_post, hs, if_false, Bool.false_eq_true, hm] at he
            cases he
            exact ⟨rfl, rfl, rfl⟩

/-- C4, instantiated: a failing decode with a message raises the API
error, a succeeding one returns the Response. -/
theorem C4_post_error_iff_failure_witness :
    ((false : Bool) = true →
      evaluate_post ⟨false, [], some "oops"⟩ =
        .ok ⟨false, [], some "oops"⟩) ∧
    ((false : Bool) = false → ∃ m, (some "oops" : Option String) = some m ∧
      evaluate_post ⟨false, [], some "oops"⟩ =
        .error (.apiError m ⟨false, [], some "oops"⟩)) ∧
    (∀ m rm, evaluate_post ⟨false, [], some "oops"⟩ = .error (.apiError m rm) →
      (false : Bool) = false ∧ rm.message = some m ∧
        rm = ⟨false, [], some "oops"⟩) :=
  C4_post_error_iff_failure ⟨false, [], some "oops"⟩ (fun _ => rfl)

/-- C5: version gating under `v1 < v1_1 < v1_2`: a guarded operation on a
Requester whose version is strictly older than required raises `ValueError`
with zero transport calls; `get_keys` with a pattern below v1_2 likewise
fails before the transport; at v1_2 the one transport call is issued with
the pattern forwarded — and then reading `.keys` off the `Response`
dataclass raises `AttributeError`, so the call never returns the keys its
docstring promises. -/
theorem C5_version_gate_before_transport :
    (∀ (required fname : String) (rq : Requester)
        (k : Unit → List String × Except GJError Response) (a b : Nat),
      lookupD VERSIONS rq.api_version = some a →
      lookupD VERSIONS required = some b → a < b →
      api_version_guard required fname rq k =
        ([], .error (.valueError ("API version mismatch: " ++ fname ++
          "() is only supported at API version " ++ required)))) ∧
    (∀ (rq : Requester) (tr : Transport) (p : String),
      rq.api_version = "v1" ∨ rq.api_version = "v1_1" →
      get_keys rq tr (Sum.inr p) Option.none =
        ([], .error (.valueError
          "API version mismatch: pattern argument is only supported at API version v1_2"))) ∧
    (∀ (rq : Requester) (tr : Transport) (p url : String),
      rq.api_version = "v1_2" →
      rq.format "/data-store/get-keys" [("pattern", PyVal.str p)] = some url →
      (tr url).success = true →
      get_keys rq tr (Sum.inr p) Option.none =
        ([url], .error (.attributeError "keys"))) := by
  refine ⟨?_, ?_, ?_⟩
  · intro required fname rq k a b ha hb hab
    rw [api_version_guard, ha, hb]
    simp [hab]
  · intro rq tr p hv
    rcases hv with hv | hv <;>
      simp [get_keys, user_or_key_checker, lookupD, hv]
  · intro rq tr p url hv hurl htr
    simp only [get_keys, user_or_key_checker, optToVal, lookupD, hv]
    simp only [if_neg (by simp : ¬(PyVal.str p = PyVal.none))]
    rw [hurl]
    simp [post_op, evaluate_post, htr, responseHasAttr]

/-- C5, instantiated: the guard and `get_keys` below v1_2, and the v1_2
call that issues its one transport request and then hits the missing
`Response.keys` attribute. -/
theorem C5_version_gate_before_transport_witness :
    api_version_guard "v1_2" "remove_achieved" rqDemoV11
        (fun _ => (([], .error (.keyError "unused")) :
          List String × Except GJError Response)) =
      ([], .error (.valueError ("API version mismatch: " ++ "remove_achieved" ++
        "() is only supported at API version " ++ "v1_2"))) ∧
    get_keys rqDemoV11 trSuccess (Sum.inr "*") Option.none =
      ([], .error (.valueError
        "API version mismatch: pattern argument is only supported at API version v1_2")) ∧
    get_keys rqDemo trSuccess (Sum.inr "*") Option.none =
      (["https://api.gamejolt.com/api/game/v1_2/data-store/get-keys?game_id=1&format=json&pattern=%2A&signature=ff0842105a17020636f702a93e62bb4a"],
        .error (.attributeError "keys")) :=
  ⟨C5_version_gate_before_transport.1 "v1_2" "remove_achieved" rqDemoV11
      (fun _ => (([], .error (.keyError "unused")) :
        List String × Except GJError Response)) 2 3 rfl rfl (by decide),
   C5_version_gate_before_transport.2.1 rqDemoV11 trSuccess "*" (Or.inr rfl),
   C5_version_gate_before_transport.2.2 rqDemo trSuccess "*"
     "https://api.gamejolt.com/api/game/v1_2/data-store/get-keys?game_id=1&format=json&pattern=%2A&signature=ff0842105a17020636f702a93e62bb4a"
     rfl (by decide) rfl⟩

/-- C7: with a transport whose decoded response is
`{success: false, message: "The user already has this trophy."}`,
`add_achieved(user, trophy_id)` raises the already-has-trophy typed error
whose `trophy_id` and `user` attributes are the arguments of the call and
which carries the structured Response; a remote message matching none of
the three known trophy strings re-raises the original `ApiError`
unchanged. -/
theorem C7_trophy_error_round_trip (rq : Requester) (tr : Transport)
    (user : PyUser) (t : String) (tid : Int) (url : String)
    (htok : user.token = some t)
    (hurl : rq.format "/trophies/add-achieved"
        [("username", PyVal.str user.username),
         ("user_token", optToVal user.token),
         ("trophy_id", PyVal.int tid)] = some url)
    (hfail : (tr url).success = false) :
    ((tr url).message = some "The user already has this trophy." →
      add_achieved rq tr user tid = ([url],
        .error (.trophiesError .userAlreadyHasTrophy
          ("User " ++ user.username ++ " already has trophy " ++ toString tid)
          (some tid) (some user)
          (some ⟨false, (tr url).response, (tr url).message⟩)))) ∧
    (∀ m, (tr url).message = some m →
      m ≠ "The user already has this trophy." →
      m ≠ "Incorrect trophy ID." →
      m ≠ "The user does not have this trophy." →
      add_achieved rq tr user tid = ([url],
        .error (.apiError m ⟨false, (tr url).response, (tr url).message⟩))) := by
  rw [htok] at hurl
  constructor
  · intro hm
    simp only [add_achieved, token_required, htok, hurl, post_op,
      evaluate_post, hfail, hm]
    simp [trophies_raise_error, hm, hfail]
  · intro m hm h1 h2 h3
    simp only [add_achieved, token_required, htok, hurl, post_op,
      evaluate_post, hfail, hm]
    simp [trophies_raise_error, hm, hfail, h1, h2, h3]

/-- C7, instantiated: the stub transport of §8's trophy round trip. -/
theorem C7_trophy_error_round_trip_witness :
    ((trAlreadyHas "https://api.gamejolt.com/api/game/v1_2/trophies/add-achieved?game_id=1&format=json&username=alice&user_token=tok&trophy_id=7&signature=1219f286a3304353374db5d74c282e47").message =
        some "The user already has this trophy." →
      add_achieved rqDemo trAlreadyHas userDemo 7 =
        (["https://api.gamejolt.com/api/game/v1_2/trophies/add-achieved?game_id=1&format=json&username=alice&user_token=tok&trophy_id=7&signature=1219f286a3304353374db5d74c282e47"],
          .error (.trophiesError .userAlreadyHasTrophy
            ("User " ++ userDemo.username ++ " already has trophy " ++
              toString (7 : Int))
            (some 7) (some userDemo)
            (some ⟨false,
              (trAlreadyHas "https://api.gamejolt.com/api/game/v1_2/trophies/add-achieved?game_id=1&format=json&username=alice&user_token=tok&trophy_id=7&signature=1219f286a3304353374db5d74c282e47").response,
              (trAlreadyHas "https://api.gamejolt.com/api/game/v1_2/trophies/add-achieved?game_id=1&format=json&username=alice&user_token=tok&trophy_id=7&signature=1219f286a3304353374db5d74c282e47").message⟩)))) ∧
    (∀ m, (trAlreadyHas "https://api.gamejolt.com/api/game/v1_2/trophies/add-achieved?game_id=1&format=json&username=alice&user_token=tok&trophy_id=7&signature=1219f286a3304353374db5d74c282e47").message =
        some m →
      m ≠ "The user already has this trophy." →
      m ≠ "Incorrect trophy ID." →
      m ≠ "The user does not have this trophy." →
      add_achieved rqDemo trAlreadyHas userDemo 7 =
        (["https://api.gamejolt.com/api/game/v1_2/trophies/add-achieved?game_id=1&format=json&username=alice&user_token=tok&trophy_id=7&signature=1219f286a3304353374db5d74c282e47"],
          .error (.apiError m ⟨false,
            (trAlreadyHas "https://api.gamejolt.com/api/game/v1_2/trophies/add-achieved?game_id=1&format=json&username=alice&user_token=tok&trophy_id=7&signature=1219f286a3304353374db5d74c282e47").response,
            (trAlreadyHas "https://api.gamejolt.com/api/game/v1_2/trophies/add-achieved?game_id=1&format=json&username=alice&user_token=tok&trophy_id=7&signature=1219f286a3304353374db5d74c282e47").message⟩))) :=
  C7_trophy_error_round_trip rqDemo trAlreadyHas userDemo "tok" 7
    "https://api.gamejolt.com/api/game/v1_2/trophies/add-achieved?game_id=1&format=json&username=alice&user_token=tok&trophy_id=7&signature=1219f286a3304353374db5d74c282e47"
    rfl (by decide) rfl

/-- C10: `get_keys` called with a `User` and no pattern raises
`ValueError("Pattern must be provided.")` in the checker, before any
transport call, for every Requester configuration and transport — the
`"*"` default of the overload signatures is never substituted. -/
theorem C10_get_keys_pattern_required (rq : Requester) (tr : Transport)
    (user : PyUser) (t : String) (htok : user.token = some t) :
    get_keys rq tr (Sum.inl user) Option.none =
      ([], .error (.valueError "Pattern must be provided.")) := by
  have hcap : capitalizePy "pattern" ++ " must be provided." =
      "Pattern must be provided." := by decide
  simp [get_keys, user_or_key_checker, optToVal, htok, hcap]

/-- C10, instantiated: a tokened user with no pattern is rejected before
the transport runs. -/
theorem C10_get_keys_pattern_required_witness :
    get_keys rqDemo trSuccess (Sum.inl userDemo) Option.none =
      ([], .error (.valueError "Pattern must be provided.")) :=
  C10_get_keys_pattern_required rqDemo trSuccess userDemo "tok" rfl

/-- C6 counterexample: a user whose token is the empty string `""` (present
but empty) passes `token_required` — the guarded body runs and its
transport call is issued, so the claim that an empty token is rejected
with zero transport calls is false on the code. -/
theorem C6_empty_token_passes_guard :
    token_required (PyUser.mk "alice" (some ""))
        (fun _ => (["posted-url"], Except.ok (0 : Nat))) =
      (["posted-url"], Except.ok 0) ∧
    (["posted-url"] : List String) ≠ [] := ⟨rfl, by decide⟩

/-- C6 as amended: `token_required` checks only `user.token is None`.  An
absent token raises `ValueError("A user token is required.")` with zero
transport calls; any present token — the empty string included — lets the
guarded operation proceed unchanged. -/
theorem C6_token_gate_checks_none_only {α : Type} (user : PyUser)
    (k : Unit → List String × Except GJError α) :
    (user.token = Option.none →
      token_required user k =
        ([], .error (.valueError "A user token is required."))) ∧
    (∀ t, user.token = some t → token_required user k = k ()) := by
  constructor
  · intro hn
    simp [token_required, hn]
  · intro t ht
    simp [token_required, ht]

/-- C6 as amended, instantiated at an absent and at an empty token. -/
theorem C6_token_gate_checks_none_only_witness :
    ((PyUser.mk "bob" Option.none).token = Option.none →
      token_required (PyUser.mk "bob" Option.none)
          (fun _ => (["posted-url"], Except.ok (0 : Nat))) =
        ([], .error (.valueError "A user token is required."))) ∧
    (∀ t, (PyUser.mk "bob" Option.none).token = some t →
      token_required (PyUser.mk "bob" Option.none)
          (fun _ => (["posted-url"], Except.ok (0 : Nat))) =
        (fun _ => (["posted-url"], Except.ok (0 : Nat))) ()) :=
  C6_token_gate_checks_none_only (PyUser.mk "bob" Option.none)
    (fun _ => (["posted-url"], Except.ok (0 : Nat)))

/-- C9: every URL a constructed Requester builds (default base URL and
API version) contains a `?` followed by a non-empty query string whose
parameter set always holds the `game_id` and `format` keys the constructor
merged in, and the signer digests exactly that pre-signature URL — so its
documented precondition of an already-query-formatted URL holds for every
endpoint and every call-time parameter map. -/
theorem C9_every_url_has_query (key : String) (game : PyVal) (fmt : String)
    (kwargs : List (String × PyVal)) (rq : Requester)
    (hinit : requesterInit key game fmt Option.none Option.none kwargs = .ok rq)
    (p : String) (c : List (String × PyVal)) :
    ∃ qs, rq.formatter_format p c = rq.format_url p ++ "?" ++ qs ∧
      qs ≠ "" ∧
      "game_id" ∈ (dunion rq.queries c).map Prod.fst ∧
      "format" ∈ (dunion rq.queries c).map Prod.fst ∧
      rq.format p c = rq.format_signature (rq.format_url p ++ "?" ++ qs) := by
  rw [requesterInit] at hinit
  by_cases hf : supported_formats.contains fmt
  · rw [if_pos hf, Except.ok.injEq] at hinit
    simp only [Option.getD_none, List.cons_append, List.nil_append] at hinit
    subst hinit
    set d : List (String × PyVal) :=
      ("game_id", game) :: ("format", PyVal.str fmt) :: kwargs with hd
    have hne : (BASE_URL ++ API_VERSION ++ p) ≠ "" := by
      apply str_ne_empty
      rw [String.data_append, String.data_append]
      have h1 : BASE_URL.data ≠ [] := by decide
      exact List.append_ne_nil_of_left_ne_nil
        (List.append_ne_nil_of_left_ne_nil h1 _) _
    have hff : Requester.formatter_format ⟨BASE_URL, API_VERSION, d, key⟩ p c =
        Requester.format_url ⟨BASE_URL, API_VERSION, d, key⟩ p ++ "?" ++
          urlencode (dunion d c) := by
      show GameJolt.format_queries (BASE_URL ++ API_VERSION ++ p) (dunion d c) = _
      rw [GameJolt.format_queries, if_neg hne]
      rfl
    have hcons : dunion d c =
        ("game_id", (lookupD c "game_id").getD game) ::
          ((("format", PyVal.str fmt) :: kwargs).map
              (fun q => (q.1, (lookupD c q.1).getD q.2)) ++
            c.filter (fun q => (lookupD d q.1).isNone)) := rfl
    have hqs : urlencode (dunion d c) ≠ "" := by
      apply str_ne_empty
      rw [hcons]
      obtain ⟨t, ht⟩ := urlencode_cons_head
        ("game_id", (lookupD c "game_id").getD game)
        ((("format", PyVal.str fmt) :: kwargs).map
            (fun q => (q.1, (lookupD c q.1).getD q.2)) ++
          c.filter (fun q => (lookupD d q.1).isNone))
      rw [← ht]
      apply List.append_ne_nil_of_left_ne_nil
      show (encodePair ("game_id", (lookupD c "game_id").getD game)).data ≠ []
      show (quote_plus "game_id" ++ "=" ++
        quote_plus (PyVal.pyStr ((lookupD c "game_id").getD game))).data ≠ []
      rw [show quote_plus "game_id" = "game_id" from by decide,
        String.data_append, String.data_append]
      exact List.append_ne_nil_of_left_ne_nil
        (List.append_ne_nil_of_left_ne_nil (by decide) _) _
    refine ⟨urlencode (dunion d c), hff, hqs, ?_, ?_, ?_⟩
    · rw [dunion_keys]
      apply List.mem_append_left
      simp [hd]
    · rw [dunion_keys]
      apply List.mem_append_left
      simp [hd]
    · show Requester.format_signature _ (Requester.formatter_format _ p c) = _
      rw [hff]
  · rw [if_neg hf] at hinit
    cases hinit

/-- C9, instantiated on the demo Requester and the `/users` endpoint. -/
theorem C9_every_url_has_query_witness :
    ∃ qs, rqDemo.formatter_format "/users" [("user_id", PyVal.str "5")] =
        rqDemo.format_url "/users" ++ "?" ++ qs ∧
      qs ≠ "" ∧
      "game_id" ∈
        (dunion rqDemo.queries [("user_id", PyVal.str "5")]).map Prod.fst ∧
      "format" ∈
        (dunion rqDemo.queries [("user_id", PyVal.str "5")]).map Prod.fst ∧
      rqDemo.format "/users" [("user_id", PyVal.str "5")] =
        rqDemo.format_signature (rqDemo.format_url "/users" ++ "?" ++ qs) :=
  C9_every_url_has_query "secret" (PyVal.int 1) "json" [] rqDemo rfl
    "/users" [("user_id", PyVal.str "5")]

/-- C8: the live attribute dispatch refines the registry: a category of
`Endpoints` resolves to a wrapper over its table, an operation of that
table resolves to a bound callable that agrees with
`Requester.format(path, **params)` on every parameter map, and an unknown
category or operation name raises `AttributeError` at access time, before
any call. -/
theorem C8_registry_dispatch (rq : Requester) (cat op path : String)
    (tbl : List (String × String)) :
    (lookupD Endpoints cat = some tbl →
      Formatter.getattr rq cat = .ok ⟨rq, tbl⟩) ∧
    (lookupD tbl op = some path →
      ∃ f, EndpointWrapper.getattr ⟨rq, tbl⟩ op = .ok f ∧
        ∀ m, f m = rq.format path m) ∧
    (lookupD Endpoints cat = Option.none →
      Formatter.getattr rq cat = .error (.attributeError cat)) ∧
    (lookupD tbl op = Option.none →
      EndpointWrapper.getattr ⟨rq, tbl⟩ op = .error (.attributeError op)) := by
  refine ⟨?_, ?_, ?_, ?_⟩
  · intro hc
    simp [Formatter.getattr, hc]
  · intro ho
    refine ⟨fun queries => Requester.format rq path queries, ?_, fun _ => rfl⟩
    simp [EndpointWrapper.getattr, ho]
  · intro hc
    simp [Formatter.getattr, hc]
  · intro ho
    simp [EndpointWrapper.getattr, ho]

/-- C8, instantiated on `USERS.FETCH` and on an unknown name. -/
theorem C8_registry_dispatch_witness :
    (lookupD Endpoints "USERS" =
        some [("FETCH", "/users"), ("AUTH", "/users/auth")] →
      Formatter.getattr rqDemo "USERS" =
        .ok ⟨rqDemo, [("FETCH", "/users"), ("AUTH", "/users/auth")]⟩) ∧
    (lookupD [("FETCH", "/users"), ("AUTH", "/users/auth")] "FETCH" =
        some "/users" →
      ∃ f, EndpointWrapper.getattr
          ⟨rqDemo, [("FETCH", "/users"), ("AUTH", "/users/auth")]⟩ "FETCH" =
        .ok f ∧ ∀ m, f m = rqDemo.format "/users" m) ∧
    (lookupD Endpoints "USERS" = Option.none →
      Formatter.getattr rqDemo "USERS" = .error (.attributeError "USERS")) ∧
    (lookupD [("FETCH", "/users"), ("AUTH", "/users/auth")] "FETCH" =
        Option.none →
      EndpointWrapper.getattr
          ⟨rqDemo, [("FETCH", "/users"), ("AUTH", "/users/auth")]⟩ "FETCH" =
        .error (.attributeError "FETCH")) :=
  C8_registry_dispatch rqDemo "USERS" "FETCH" "/users"
    [("FETCH", "/users"), ("AUTH", "/users/auth")]

end GameJolt

